import Mathlib

/-!
Verification development for the payment-checkout repository
(src/payment_mode.py, src/exceptions.py, src/config.py, src/checkout.py).

The Python code is shallowly embedded:
* `PyDecimal` models `decimal.Decimal` values exactly (sign, coefficient,
  exponent; plus infinities and NaN).  `parseDecimalString` models the
  `Decimal` constructor on strings (ASCII subset: leading/trailing whitespace
  stripped, underscores removed, the numeric-string grammar including
  exponents, `Infinity` and `NaN`).
* `RawAmount` models the dynamically typed `amount` argument: an `int`, a
  `bool` (a subclass of `int` in Python, so it passes the `isinstance`
  check), a `float` (carried as the decimal value denoted by its `str()`
  form, which is what `Decimal(str(x))` receives), a `Decimal`, a `str`, or
  any value of another type (`other`).
* Errors become the `PyError` sum type; `valueError` and `invalidOperation`
  model the builtin `ValueError` and `decimal.InvalidOperation`, which are
  NOT subclasses of the repository's `PaymentError`.
* The processors' `hash(str(amount))` uses Python's run-internal string
  hash; it is modelled as an explicit function argument `hash : String → Int`
  threaded through the definitions, so theorems quantify over it.
-/

/-- A `decimal.Decimal` value: `fin s c e` denotes `(-1)^s * c * 10^e`
(`s = true` means negative; Python keeps a sign bit even for zero),
plus signed infinities and NaN (`NaN` and `sNaN` both map to `nan`;
their payload digits are irrelevant to this code). -/
inductive PyDecimal where
  | fin (sign : Bool) (coeff : Nat) (exp : Int)
  | inf (sign : Bool)
  | nan
deriving DecidableEq, Repr

/-- Signed coefficient of a finite decimal, as an integer. -/
def signedCoeff (sign : Bool) (coeff : Nat) : Int :=
  if sign then -(coeff : Int) else (coeff : Int)

/-- Rational value of a finite decimal `(-1)^sign * coeff * 10^exp`. -/
def ratSigned (sign : Bool) (coeff : Nat) (exp : Int) : ℚ :=
  ((signedCoeff sign coeff : Int) : ℚ) * (10 : ℚ) ^ exp

/-- Three-way comparison on integers. -/
def ordInt (a b : Int) : Ordering :=
  if a < b then .lt else if a = b then .eq else .gt

/-- Compare `a * 10^ea` with `b * 10^eb` (signed coefficients `a`, `b`)
by scaling both to the smaller exponent. -/
def cmpVal (a ea b eb : Int) : Ordering :=
  if ea ≤ eb then ordInt a (b * 10 ^ (eb - ea).toNat)
  else ordInt (a * 10 ^ (ea - eb).toNat) b

/-- Python `Decimal` comparison (`<`, `>`, `==`).  Ordering comparisons
with a NaN operand signal `decimal.InvalidOperation`, modelled as `none`. -/
def decCompare : PyDecimal → PyDecimal → Option Ordering
  | .nan, _ => none
  | .fin _ _ _, .nan => none
  | .inf _, .nan => none
  | .inf s₁, .inf s₂ =>
      some (if s₁ = s₂ then .eq else if s₁ then .lt else .gt)
  | .inf s, .fin _ _ _ => some (if s then .lt else .gt)
  | .fin _ _ _, .inf s => some (if s then .gt else .lt)
  | .fin s₁ c₁ e₁, .fin s₂ c₂ e₂ =>
      some (cmpVal (signedCoeff s₁ c₁) e₁ (signedCoeff s₂ c₂) e₂)

/-- Model of `d.quantize(Decimal('0.01'))` with the default context rounding
ROUND_HALF_EVEN: round the value to exponent `-2`.  Only finite values
reach this in `AmountValidator.validate` (the range check rejects the
infinities first), so the `inf`/`nan` branches are never exercised there. -/
def quantize2 : PyDecimal → PyDecimal
  | .fin s c e =>
      if -2 ≤ e then .fin s (c * 10 ^ (e + 2).toNat) (-2)
      else
        let k := (-2 - e).toNat
        let q := c / 10 ^ k
        let r := c % 10 ^ k
        let half := 5 * 10 ^ (k - 1)
        let q2 :=
          if half < r then q + 1
          else if r < half then q
          else if q % 2 = 1 then q + 1 else q
        .fin s q2 (-2)
  | .inf s => .inf s
  | .nan => .nan

/-! ### The Decimal constructor on strings (ASCII model) -/

/-- ASCII digit test (Python's numeric-string grammar digits). -/
def isAsciiDigit (ch : Char) : Bool := 48 ≤ ch.toNat && ch.toNat ≤ 57

/-- Value of a (non-empty) ASCII digit string; `[]` yields `0`. -/
def digitsToNat (l : List Char) : Nat :=
  l.foldl (fun acc ch => acc * 10 + (ch.toNat - 48)) 0

/-- Whitespace stripped by the `Decimal` constructor (ASCII model). -/
def isPyWhitespace (ch : Char) : Bool :=
  ch = ' ' || ch = '\t' || ch = '\n' || ch = '\r' || ch.toNat = 11 || ch.toNat = 12

/-- Consume an optional leading sign; `true` means negative. -/
def splitSign : List Char → Bool × List Char
  | '-' :: rest => (true, rest)
  | '+' :: rest => (false, rest)
  | l => (false, l)

/-- After the digit part, the input must either end or be a complete
exponent suffix `(e|E)[sign]digits`. -/
def parseExpSuffix (coeff : Nat) (exp : Int) : List Char → Option (Nat × Int)
  | [] => some (coeff, exp)
  | ch :: rest =>
      if ch = 'e' || ch = 'E' then
        let p := splitSign rest
        let eds := p.2.takeWhile isAsciiDigit
        let rest2 := p.2.dropWhile isAsciiDigit
        if eds.isEmpty || !rest2.isEmpty then none
        else
          some (coeff, exp + (if p.1 then -(digitsToNat eds : Int) else (digitsToNat eds : Int)))
      else none

/-- Parse `digits [. [digits]] [exponent]` with at least one digit overall. -/
def parseFinite (l : List Char) : Option (Nat × Int) :=
  let ids := l.takeWhile isAsciiDigit
  let rest := l.dropWhile isAsciiDigit
  match rest with
  | '.' :: rest2 =>
      let fds := rest2.takeWhile isAsciiDigit
      let rest3 := rest2.dropWhile isAsciiDigit
      if ids.isEmpty && fds.isEmpty then none
      else parseExpSuffix (digitsToNat (ids ++ fds)) (-(fds.length : Int)) rest3
  | _ =>
      if ids.isEmpty then none
      else parseExpSuffix (digitsToNat ids) 0 rest

/-- Parse `Infinity`/`Inf` and `NaN`/`sNaN` (case-insensitive, optional NaN
payload digits). -/
def parseSpecial (sign : Bool) (l : List Char) : Option PyDecimal :=
  let ll := l.map Char.toLower
  if ll = "inf".data || ll = "infinity".data then some (.inf sign)
  else
    let core : Option (List Char) :=
      if ll.take 4 = "snan".data then some (ll.drop 4)
      else if ll.take 3 = "nan".data then some (ll.drop 3)
      else none
    match core with
    | some rest => if rest.all isAsciiDigit then some .nan else none
    | none => none

/-- Model of `Decimal(s)` for a string `s`: strip whitespace, drop underscores,
optional sign, then a finite numeric body or a special value. -/
def parseDecimalString (s : String) : Option PyDecimal :=
  let chars := s.data.filter (fun ch => ch ≠ '_')
  let trimmed := ((chars.dropWhile isPyWhitespace).reverse.dropWhile isPyWhitespace).reverse
  match trimmed with
  | [] => none
  | _ =>
      let p := splitSign trimmed
      match parseFinite p.2 with
      | some ce => some (.fin p.1 ce.1 ce.2)
      | none => parseSpecial p.1 p.2

/-! ### str() of a Decimal (Python's to-scientific-string) -/

/-- Character for a digit value `0..9`. -/
def digitChar (d : Nat) : Char := Char.ofNat (48 + d)

/-- Model of `str()` on a `Decimal`, following the to-scientific-string rules:
positional notation when `exp ≤ 0` and the adjusted exponent is `≥ -6`,
scientific notation otherwise. -/
def PyDecimal.pyStr : PyDecimal → String
  | .nan => "NaN"
  | .inf s => (if s then "-" else "") ++ "Infinity"
  | .fin s c e =>
      let sign := if s then "-" else ""
      let ds := toString c
      let n : Int := (ds.length : Int)
      let adj : Int := e + n - 1
      if e ≤ 0 ∧ -6 ≤ adj then
        if e = 0 then sign ++ ds
        else
          let point : Int := n + e
          if point ≤ 0 then
            sign ++ "0." ++ String.mk (List.replicate (-point).toNat '0') ++ ds
          else sign ++ ds.take point.toNat ++ "." ++ ds.drop point.toNat
      else
        let mant := if ds.length = 1 then ds else ds.take 1 ++ "." ++ ds.drop 1
        sign ++ mant ++ "E" ++ (if 0 ≤ adj then "+" else "") ++ toString adj

/-- Two zero-padded digits (used for the cents part of `:.2f`). -/
def pad2 (n : Nat) : String := String.mk [digitChar (n / 10 % 10), digitChar (n % 10)]

/-- Model of `f"{amount:.2f}"` on a `Decimal`: round to two decimals (half-even,
like `quantize`) and print with exactly two fractional digits. -/
def formatF2 (d : PyDecimal) : String :=
  match quantize2 d with
  | .fin s c _ => (if s then "-" else "") ++ toString (c / 100) ++ "." ++ pad2 (c % 100)
  | .inf s => (if s then "-" else "") ++ "Infinity"
  | .nan => "NaN"

/-- Model of `f"{k:05d}"`: five zero-padded decimal digits.  All call sites take
`k = hash(...) % 100000 < 100000`, where this agrees with Python's
zero-padded formatting. -/
def format05 (n : Nat) : String :=
  String.mk [digitChar (n / 10000 % 10), digitChar (n / 1000 % 10),
             digitChar (n / 100 % 10), digitChar (n / 10 % 10), digitChar (n % 10)]

/-! ### payment_mode.py -/

/-- The `PaymentMode` enumeration. -/
inductive PaymentMode where
  | PAYPAL
  | GOOGLEPAY
  | CREDITCARD
deriving DecidableEq, Repr

/-- Member names, `PaymentMode.<member>.name`. -/
def PaymentMode.name : PaymentMode → String
  | .PAYPAL => "PAYPAL"
  | .GOOGLEPAY => "GOOGLEPAY"
  | .CREDITCARD => "CREDITCARD"

/-- Python `str.upper()` restricted to ASCII (the member names are ASCII). -/
def asciiUpper (s : String) : String := String.mk (s.data.map Char.toUpper)

/-! ### exceptions.py (and the two builtin exceptions this code can raise) -/

/-- Exceptions raised by the embedded code.  The first four model the
`PaymentError` subclasses of src/exceptions.py (each carrying the parts of
its message that the claims inspect); `valueError` models the builtin
`ValueError` raised by `PaymentMode.from_string`; `invalidOperation`
models `decimal.InvalidOperation`, signalled when a NaN meets an ordering
comparison.  The latter two are not `PaymentError`s. -/
inductive PyError where
  | invalidPaymentMode (mode : String)
  | invalidAmount (reason : String)
  | processorNotFound (mode : String)
  | paymentProcessing (message : String)
  | valueError (message : String)
  | invalidOperation
deriving DecidableEq, Repr

/-- Model of `isinstance(e, PaymentError)`. -/
def isPaymentError : PyError → Bool
  | .invalidPaymentMode _ => true
  | .invalidAmount _ => true
  | .processorNotFound _ => true
  | .paymentProcessing _ => true
  | .valueError _ => false
  | .invalidOperation => false

/-- The repr of `[mode.name for mode in cls]` used in the `from_string`
error message. -/
def VALID_MODES_REPR : String :=
  "[\x27PAYPAL\x27, \x27GOOGLEPAY\x27, \x27CREDITCARD\x27]"

/-- Model of `PaymentMode.from_string`: uppercase, then look the name up among the
members; on failure raise `ValueError` (note: NOT the repository's
`InvalidPaymentModeError`) listing the valid modes. -/
def PaymentMode.from_string (mode_str : String) : Except PyError PaymentMode :=
  let u := asciiUpper mode_str
  if u = "PAYPAL" then .ok .PAYPAL
  else if u = "GOOGLEPAY" then .ok .GOOGLEPAY
  else if u = "CREDITCARD" then .ok .CREDITCARD
  else .error (.valueError ("Invalid payment mode: " ++ u ++ ". Valid modes are: " ++ VALID_MODES_REPR))

/-! ### config.py -/

def MIN_PAYMENT_AMOUNT : PyDecimal := .fin false 1 (-2)

def MAX_PAYMENT_AMOUNT : PyDecimal := .fin false 99999999 (-2)

def INVALID_AMOUNT_TYPE_ERROR : String := "Amount must be a number"

def AMOUNT_TOO_LOW_ERROR : String := "Amount must be at least $0.01"

def AMOUNT_TOO_HIGH_ERROR : String := "Amount cannot exceed $999999.99"

/-! ### checkout.py: PaymentResult, AmountValidator -/

/-- Model of `PaymentResult(success, message, transaction_id=None)`. -/
structure PaymentResult where
  success : Bool
  message : String
  transaction_id : Option String
deriving DecidableEq, Repr

/-- The dynamically typed `amount` argument of `validate`/`checkout`. -/
inductive RawAmount where
  | int (n : Int)
  | bool (b : Bool)
  | float (d : PyDecimal)
  | decimal (d : PyDecimal)
  | str (s : String)
  | other
deriving DecidableEq, Repr

/-- Model of `isinstance(amount, (int, float, Decimal, str))`; Python's `bool` is a
subclass of `int`, so it passes. -/
def isAllowedType : RawAmount → Bool
  | .other => false
  | _ => true

/-- Model of `Decimal(str(amount))`:
* an `int` `n` yields exactly the decimal `n` (`str(n)` is its decimal
  numeral, which the constructor parses back exactly);
* a `bool` yields `Decimal("True")`/`Decimal("False")`, which fail to parse;
* a `float` yields the decimal denoted by its `str()` form, which is what
  the `float` constructor of `RawAmount` carries;
* a `Decimal` round-trips through `str` unchanged;
* a `str` goes through the constructor's parser.
`none` models a raised `ValueError`/`decimal.InvalidOperation`. -/
def pyDecimalOf : RawAmount → Option PyDecimal
  | .int n => some (.fin (decide (n < 0)) n.natAbs 0)
  | .bool b => parseDecimalString (if b then "True" else "False")
  | .float d => some d
  | .decimal d => some d
  | .str s => parseDecimalString s
  | .other => none

/-- The range check and final rounding of `AmountValidator.validate`
(checkout.py lines 227-235): `decimal_amount < MIN` (raising
`decimal.InvalidOperation` on NaN, which the function does not catch),
then `decimal_amount > MAX`, then `quantize(Decimal('0.01'))`. -/
def checkRange (d : PyDecimal) : Except PyError PyDecimal :=
  match decCompare d MIN_PAYMENT_AMOUNT with
  | none => .error .invalidOperation
  | some .lt => .error (.invalidAmount AMOUNT_TOO_LOW_ERROR)
  | some _ =>
      match decCompare d MAX_PAYMENT_AMOUNT with
      | none => .error .invalidOperation
      | some .gt => .error (.invalidAmount AMOUNT_TOO_HIGH_ERROR)
      | some _ => .ok (quantize2 d)

/-- Model of `AmountValidator.validate` (checkout.py lines 204-235): type check,
conversion via `Decimal(str(amount))` with `ValueError`/`InvalidOperation`
mapped to `InvalidAmountError`, then range check and rounding. -/
def AmountValidator.validate (amount : RawAmount) : Except PyError PyDecimal :=
  if !isAllowedType amount then .error (.invalidAmount INVALID_AMOUNT_TYPE_ERROR)
  else
    match pyDecimalOf amount with
    | none => .error (.invalidAmount INVALID_AMOUNT_TYPE_ERROR)
    | some d => checkRange d

/-! ### checkout.py: processors -/

/-- A payment processor's `process_payment`. -/
def Processor := PyDecimal → Except PyError PaymentResult

/-- Model of `PayPalProcessor.process_payment`: success message from
`PAYMENT_SUCCESS_TEMPLATE` and mock id `f"PP_{hash(str(amount)) % 100000:05d}"`. -/
def PayPalProcessor.process_payment (hash : String → Int) (amount : PyDecimal) :
    Except PyError PaymentResult :=
  .ok { success := true
        message := "Successfully processed PayPal payment of $" ++ formatF2 amount
        transaction_id := some ("PP_" ++ format05 ((hash amount.pyStr).emod 100000).toNat) }

/-- Model of `GooglePayProcessor.process_payment`. -/
def GooglePayProcessor.process_payment (hash : String → Int) (amount : PyDecimal) :
    Except PyError PaymentResult :=
  .ok { success := true
        message := "Successfully processed GooglePay payment of $" ++ formatF2 amount
        transaction_id := some ("GP_" ++ format05 ((hash amount.pyStr).emod 100000).toNat) }

/-- Model of `CreditCardProcessor.process_payment`. -/
def CreditCardProcessor.process_payment (hash : String → Int) (amount : PyDecimal) :
    Except PyError PaymentResult :=
  .ok { success := true
        message := "Successfully processed Credit Card payment of $" ++ formatF2 amount
        transaction_id := some ("CC_" ++ format05 ((hash amount.pyStr).emod 100000).toNat) }

/-! ### checkout.py: CheckoutService and the legacy Checkout facade -/

/-- The `mode` argument of `checkout`: either an actual `PaymentMode`
member or any other value (carried with its `str()` form, used in the
error message). -/
inductive ModeInput where
  | mode (m : PaymentMode)
  | notMode (s : String)

/-- A `CheckoutService` instance: its `_processors` registry. -/
structure CheckoutService where
  processors : PaymentMode → Option Processor

/-- Model of `CheckoutService.__init__`: registry populated with the three default
processors. -/
def initService (hash : String → Int) : CheckoutService :=
  { processors := fun m =>
      match m with
      | .PAYPAL => some (PayPalProcessor.process_payment hash)
      | .GOOGLEPAY => some (GooglePayProcessor.process_payment hash)
      | .CREDITCARD => some (CreditCardProcessor.process_payment hash) }

/-- Model of `CheckoutService._get_processor`. -/
def CheckoutService.get_processor (svc : CheckoutService) (mode : PaymentMode) :
    Except PyError Processor :=
  match svc.processors mode with
  | none => .error (.processorNotFound mode.name)
  | some p => .ok p

/-- Model of `CheckoutService.add_processor`: unconditionally overwrite the registry
entry for `mode`. -/
def CheckoutService.add_processor (svc : CheckoutService) (mode : PaymentMode)
    (p : Processor) : CheckoutService :=
  { processors := fun m => if m = mode then some p else svc.processors m }

/-- Model of `CheckoutService.checkout`: mode check (`PaymentMode.is_valid`, an
`isinstance` test), amount validation, processor lookup, processing. -/
def CheckoutService.checkout (svc : CheckoutService) (mode : ModeInput)
    (amount : RawAmount) : Except PyError PaymentResult :=
  match mode with
  | .notMode s => .error (.invalidPaymentMode s)
  | .mode m =>
      match AmountValidator.validate amount with
      | .error e => .error e
      | .ok validated =>
          match svc.get_processor m with
          | .error e => .error e
          | .ok p => p validated

/-- Legacy `Checkout.checkout` (checkout.py lines 320-348): wraps a fresh
`CheckoutService`; returns the result's success flag, and returns `False`
from both the `except PaymentError` handler and the catch-all
`except Exception` handler. -/
def Checkout.checkout (hash : String → Int) (mode : ModeInput) (amount : RawAmount) : Bool :=
  match CheckoutService.checkout (initService hash) mode amount with
  | .ok result => result.success
  | .error e => if isPaymentError e then false else false

/-! ### Vocabulary for the claims -/

/-- The `processor_name` of the processor registered for each mode. -/
def processorDisplayName : PaymentMode → String
  | .PAYPAL => "PayPal"
  | .GOOGLEPAY => "GooglePay"
  | .CREDITCARD => "Credit Card"

/-- The transaction-id prefix of the processor registered for each mode. -/
def modeTag : PaymentMode → String
  | .PAYPAL => "PP"
  | .GOOGLEPAY => "GP"
  | .CREDITCARD => "CC"

/-- Did the call raise `InvalidAmountError`? -/
def isInvalidAmountRes : Except PyError PyDecimal → Bool
  | .error (.invalidAmount _) => true
  | _ => false

/-- Did the call raise `InvalidPaymentModeError`? -/
def isInvalidPaymentModeRes : Except PyError PaymentMode → Bool
  | .error (.invalidPaymentMode _) => true
  | _ => false

/-- Did the call raise `ProcessorNotFoundError`? -/
def isProcessorNotFoundRes : Except PyError PaymentResult → Bool
  | .error (.processorNotFound _) => true
  | _ => false

/-- Spec-side (for claim C3): "the parsed numeric value is below 0.01",
read over the rational value of the parsed decimal, with `-Infinity`
below everything and NaN (not a number) neither below nor above. -/
def specBelowMin : PyDecimal → Bool
  | .fin s c e => decide (ratSigned s c e < 1 / 100)
  | .inf s => s
  | .nan => false

/-- Spec-side (for claim C3): "the parsed numeric value is above 999999.99". -/
def specAboveMax : PyDecimal → Bool
  | .fin s c e => decide ((99999999 : ℚ) / 100 < ratSigned s c e)
  | .inf s => !s
  | .nan => false

/-- Spec-side (for claim C3): the condition under which the spec says
`validate` fails with `InvalidAmount`: the type is not one of
integer/float/fixed-point-decimal/string (a boolean is not a number in the
spec's ontology, although Python's `bool` passes the `isinstance` check),
or the string does not parse, or the parsed numeric value is out of range. -/
def specC3Cond : RawAmount → Bool
  | .other => true
  | .bool _ => true
  | .int n => decide ((n : ℚ) < 1 / 100) || decide ((99999999 : ℚ) / 100 < (n : ℚ))
  | .float d => specBelowMin d || specAboveMax d
  | .decimal d => specBelowMin d || specAboveMax d
  | .str s =>
      match parseDecimalString s with
      | none => true
      | some d => specBelowMin d || specAboveMax d

/-- Spec-side (for claim C3): a "non-numeric, non-numeric-string input". -/
def isNonNumericInput : RawAmount → Bool
  | .other => true
  | .bool _ => true
  | .str s => (parseDecimalString s).isNone
  | _ => false

/-- A trivial stub processor, used to exercise registry overwriting. -/
def stubProcessor : Processor :=
  fun _ => .ok { success := false, message := "stub", transaction_id := none }

/-- The `CheckoutService` states reachable through the public API: a fresh
`__init__` followed by any sequence of `add_processor` calls (the only
operation that mutates the registry). -/
inductive Reachable (hash : String → Int) : CheckoutService → Prop
  | init : Reachable hash (initService hash)
  | add (svc : CheckoutService) (m : PaymentMode) (p : Processor) :
      Reachable hash svc → Reachable hash (svc.add_processor m p)

/-! ### Order bridge: the integer-scaled comparison computes the rational order -/

lemma ordInt_eq_lt (a b : Int) : ordInt a b = .lt ↔ a < b := by
  unfold ordInt
  split_ifs with h1 h2
  · exact ⟨fun _ => h1, fun _ => rfl⟩
  · exact ⟨fun hc => absurd hc (by decide), fun hc => absurd hc h1⟩
  · exact ⟨fun hc => absurd hc (by decide), fun hc => absurd hc h1⟩

lemma ordInt_eq_gt (a b : Int) : ordInt a b = .gt ↔ b < a := by
  unfold ordInt
  split_ifs with h1 h2
  · exact ⟨fun hc => absurd hc (by decide), fun hc => (by omega : False).elim⟩
  · exact ⟨fun hc => absurd hc (by decide), fun hc => (by omega : False).elim⟩
  · exact ⟨fun _ => by omega, fun _ => rfl⟩

lemma ordInt_eq_eq (a b : Int) : ordInt a b = .eq ↔ a = b := by
  unfold ordInt
  split_ifs with h1 h2
  · exact ⟨fun hc => absurd hc (by decide), fun hc => (by omega : False).elim⟩
  · exact ⟨fun _ => h2, fun _ => rfl⟩
  · exact ⟨fun hc => absurd hc (by decide), fun hc => absurd hc h2⟩

lemma qscale (b ebig esmall : Int) (h : esmall ≤ ebig) :
    ((b * 10 ^ (ebig - esmall).toNat : Int) : ℚ) * (10 : ℚ) ^ esmall
      = (b : ℚ) * (10 : ℚ) ^ ebig := by
  have hne : (10 : ℚ) ≠ 0 := by norm_num
  have hk : (((ebig - esmall).toNat : ℤ)) = ebig - esmall := Int.toNat_of_nonneg (by omega)
  push_cast
  rw [← zpow_natCast (10 : ℚ) (ebig - esmall).toNat, hk, mul_assoc, ← zpow_add₀ hne,
    sub_add_cancel]

lemma scaled_lt_iff (a b ebig esmall : Int) (h : esmall ≤ ebig) :
    a < b * 10 ^ (ebig - esmall).toNat
      ↔ (a : ℚ) * (10 : ℚ) ^ esmall < (b : ℚ) * (10 : ℚ) ^ ebig := by
  rw [← qscale b ebig esmall h, mul_lt_mul_right (zpow_pos (by norm_num) esmall)]
  exact Int.cast_lt.symm

lemma scaled_lt_iff2 (a b ebig esmall : Int) (h : esmall ≤ ebig) :
    a * 10 ^ (ebig - esmall).toNat < b
      ↔ (a : ℚ) * (10 : ℚ) ^ ebig < (b : ℚ) * (10 : ℚ) ^ esmall := by
  rw [← qscale a ebig esmall h, mul_lt_mul_right (zpow_pos (by norm_num) esmall)]
  exact Int.cast_lt.symm

lemma cmpVal_eq_lt_iff (a ea b eb : Int) :
    cmpVal a ea b eb = .lt ↔ (a : ℚ) * (10 : ℚ) ^ ea < (b : ℚ) * (10 : ℚ) ^ eb := by
  unfold cmpVal
  split_ifs with h
  · rw [ordInt_eq_lt]; exact scaled_lt_iff a b eb ea h
  · rw [ordInt_eq_lt]; exact scaled_lt_iff2 a b ea eb (by omega)

lemma cmpVal_eq_gt_iff (a ea b eb : Int) :
    cmpVal a ea b eb = .gt ↔ (b : ℚ) * (10 : ℚ) ^ eb < (a : ℚ) * (10 : ℚ) ^ ea := by
  unfold cmpVal
  split_ifs with h
  · rw [ordInt_eq_gt]; exact scaled_lt_iff2 b a eb ea h
  · rw [ordInt_eq_gt]; exact scaled_lt_iff b a ea eb (by omega)

lemma cmpVal_ne_lt (a ea b eb : Int)
    (h : ¬ (a : ℚ) * (10 : ℚ) ^ ea < (b : ℚ) * (10 : ℚ) ^ eb) :
    cmpVal a ea b eb ≠ .lt := fun hc => h ((cmpVal_eq_lt_iff a ea b eb).mp hc)

lemma cmpVal_ne_gt (a ea b eb : Int)
    (h : ¬ (b : ℚ) * (10 : ℚ) ^ eb < (a : ℚ) * (10 : ℚ) ^ ea) :
    cmpVal a ea b eb ≠ .gt := fun hc => h ((cmpVal_eq_gt_iff a ea b eb).mp hc)

lemma ratSigned_def (s : Bool) (c : Nat) (e : Int) :
    ratSigned s c e = ((signedCoeff s c : Int) : ℚ) * (10 : ℚ) ^ e := rfl

lemma ratSigned_min : ratSigned false 1 (-2) = 1 / 100 := by
  unfold ratSigned signedCoeff
  norm_num

lemma ratSigned_max : ratSigned false 99999999 (-2) = 99999999 / 100 := by
  unfold ratSigned signedCoeff
  norm_num

/-! ### Evaluation lemmas for the range check -/

@[simp] lemma signedCoeff_false_one : signedCoeff false 1 = 1 := rfl

@[simp] lemma signedCoeff_false_max : signedCoeff false 99999999 = 99999999 := rfl

lemma signedCoeff_int (n : Int) : signedCoeff (decide (n < 0)) n.natAbs = n := by
  unfold signedCoeff
  by_cases h : n < 0
  · rw [decide_eq_true h]
    show -(n.natAbs : Int) = n
    omega
  · rw [decide_eq_false h]
    show (n.natAbs : Int) = n
    omega

lemma q_one_em2 : ((1 : Int) : ℚ) * (10 : ℚ) ^ (-2 : ℤ) = 1 / 100 := ratSigned_min

lemma q_max_em2 : ((99999999 : Int) : ℚ) * (10 : ℚ) ^ (-2 : ℤ) = 99999999 / 100 :=
  ratSigned_max

/-- Evaluation of `checkRange` on a finite decimal, with the two `Decimal` comparisons
exposed as `cmpVal` applications. -/
lemma checkRange_fin_cases (s : Bool) (c : Nat) (e : Int) :
    checkRange (.fin s c e) =
      match cmpVal (signedCoeff s c) e 1 (-2) with
      | .lt => .error (.invalidAmount AMOUNT_TOO_LOW_ERROR)
      | _ =>
        match cmpVal (signedCoeff s c) e 99999999 (-2) with
        | .gt => .error (.invalidAmount AMOUNT_TOO_HIGH_ERROR)
        | _ => .ok (quantize2 (.fin s c e)) := by
  rcases hc1 : cmpVal (signedCoeff s c) e 1 (-2) with _ | _ | _ <;>
    rcases hc2 : cmpVal (signedCoeff s c) e 99999999 (-2) with _ | _ | _ <;>
      simp [checkRange, decCompare, MIN_PAYMENT_AMOUNT, MAX_PAYMENT_AMOUNT, hc1, hc2]

/-- A negative (or negatively signed zero) decimal always compares below
the minimum amount. -/
lemma cmpVal_neg_lt_min (c : Nat) (e : Int) :
    cmpVal (signedCoeff true c) e 1 (-2) = .lt := by
  have hs : signedCoeff true c = -(c : Int) := rfl
  rw [hs]
  unfold cmpVal
  split_ifs with h
  · rw [ordInt_eq_lt]
    have h10 : (0 : Int) < 10 ^ ((-2 : Int) - e).toNat := pow_pos (by norm_num) _
    have hc : (0 : Int) ≤ (c : Int) := Int.natCast_nonneg c
    linarith
  · rw [ordInt_eq_lt]
    have h10 : (0 : Int) ≤ (c : Int) * 10 ^ (e - (-2 : Int)).toNat := by positivity
    linarith

/-- Bounds on the rounded coefficient: if a nonnegative finite decimal
passes both range comparisons, `quantize`-to-cents lands in
`[1, 99999999]`, i.e. in `[0.01, 999999.99]` exactly. -/
lemma quantize2_coeff_bounds (c : Nat) (e : Int)
    (hlo : cmpVal ((c : Nat) : Int) e 1 (-2) ≠ .lt)
    (hhi : cmpVal ((c : Nat) : Int) e 99999999 (-2) ≠ .gt) :
    ∃ c2, quantize2 (.fin false c e) = .fin false c2 (-2) ∧ 1 ≤ c2 ∧ c2 ≤ 99999999 := by
  unfold cmpVal at hlo hhi
  by_cases he : -2 ≤ e
  · -- exact rescaling: coefficient becomes c * 10^(e+2)
    by_cases he2 : e ≤ -2
    · have he3 : e = -2 := by omega
      subst he3
      rw [if_pos (by omega : (-2 : Int) ≤ -2)] at hlo hhi
      rw [Ne, ordInt_eq_lt] at hlo
      rw [Ne, ordInt_eq_gt] at hhi
      have h0 : ((-2 : Int) - -2).toNat = 0 := by omega
      rw [h0] at hlo hhi
      simp only [pow_zero, mul_one] at hlo hhi
      refine ⟨c, ?_, by omega, by omega⟩
      simp [quantize2]
    · rw [if_neg he2] at hlo hhi
      rw [Ne, ordInt_eq_lt] at hlo
      rw [Ne, ordInt_eq_gt] at hhi
      have hm : (e - (-2 : Int)) = e + 2 := by omega
      rw [hm] at hlo hhi
      have hcast : ((c : Int) * 10 ^ (e + 2).toNat) = ((c * 10 ^ (e + 2).toNat : Nat) : Int) := by
        push_cast; ring
      rw [hcast] at hlo hhi
      refine ⟨c * 10 ^ (e + 2).toNat, ?_, by omega, by omega⟩
      simp [quantize2, he]
  · -- rounding: k digits are dropped with half-even rounding
    rw [if_pos (by omega : e ≤ -2)] at hlo hhi
    rw [Ne, ordInt_eq_lt] at hlo
    rw [Ne, ordInt_eq_gt] at hhi
    set k := ((-2 : Int) - e).toNat with hk
    have hKc : ((10 : Int) ^ k) = ((10 ^ k : Nat) : Int) := by push_cast; ring
    rw [hKc] at hlo hhi
    have hlo2 : 10 ^ k ≤ c := by omega
    have hhi2 : c ≤ 99999999 * 10 ^ k := by
      have : (c : Int) ≤ 99999999 * ((10 ^ k : Nat) : Int) := by omega
      exact_mod_cast this
    set K := 10 ^ k with hKdef
    have hK : 0 < K := pow_pos (by norm_num) k
    have hdm : K * (c / K) + c % K = c := Nat.div_add_mod c K
    have hq1 : 1 ≤ c / K := (Nat.one_le_div_iff hK).mpr hlo2
    have hqM : c / K ≤ 99999999 := by
      have h1 : c / K ≤ 99999999 * K / K := Nat.div_le_div_right hhi2
      rwa [Nat.mul_div_cancel _ hK] at h1
    have hhalf : 0 < 5 * 10 ^ (k - 1) := by positivity
    have hqlt : 1 ≤ c % K → c / K < 99999999 := by
      intro hr
      have hceil : c / K * K < 99999999 * K := by
        calc c / K * K = K * (c / K) := Nat.mul_comm _ _
          _ < K * (c / K) + c % K := Nat.lt_add_of_pos_right (by omega)
          _ = c := hdm
          _ ≤ 99999999 * K := hhi2
      exact lt_of_mul_lt_mul_right hceil (Nat.zero_le K)
    refine ⟨(if 5 * 10 ^ (k - 1) < c % K then c / K + 1
             else if c % K < 5 * 10 ^ (k - 1) then c / K
             else if (c / K) % 2 = 1 then c / K + 1 else c / K), ?_, ?_, ?_⟩
    · simp only [quantize2, if_neg he]
    · split_ifs <;> omega
    · split_ifs with h1 h2 h3
      · have := hqlt (by omega)
        omega
      · exact hqM
      · have := hqlt (by omega)
        omega
      · exact hqM

/-! ### Shape of successful validations -/

lemma checkRange_ok_shape (s : Bool) (c : Nat) (e : Int) (v : PyDecimal)
    (h : checkRange (.fin s c e) = .ok v) :
    ∃ c2, v = .fin false c2 (-2) ∧ 1 ≤ c2 ∧ c2 ≤ 99999999 := by
  cases s
  · have hs : signedCoeff false c = ((c : Nat) : Int) := rfl
    rw [checkRange_fin_cases, hs] at h
    rcases h1 : cmpVal ((c : Nat) : Int) e 1 (-2) with _ | _ | _ <;> rw [h1] at h
    · simp at h
    · rcases h2 : cmpVal ((c : Nat) : Int) e 99999999 (-2) with _ | _ | _ <;> rw [h2] at h
      · simp only [Except.ok.injEq] at h
        obtain ⟨c2, hq, hb1, hb2⟩ :=
          quantize2_coeff_bounds c e (by simp [h1]) (by simp [h2])
        exact ⟨c2, by rw [← h, hq], hb1, hb2⟩
      · simp only [Except.ok.injEq] at h
        obtain ⟨c2, hq, hb1, hb2⟩ :=
          quantize2_coeff_bounds c e (by simp [h1]) (by simp [h2])
        exact ⟨c2, by rw [← h, hq], hb1, hb2⟩
      · simp at h
    · rcases h2 : cmpVal ((c : Nat) : Int) e 99999999 (-2) with _ | _ | _ <;> rw [h2] at h
      · simp only [Except.ok.injEq] at h
        obtain ⟨c2, hq, hb1, hb2⟩ :=
          quantize2_coeff_bounds c e (by simp [h1]) (by simp [h2])
        exact ⟨c2, by rw [← h, hq], hb1, hb2⟩
      · simp only [Except.ok.injEq] at h
        obtain ⟨c2, hq, hb1, hb2⟩ :=
          quantize2_coeff_bounds c e (by simp [h1]) (by simp [h2])
        exact ⟨c2, by rw [← h, hq], hb1, hb2⟩
      · simp at h
  · rw [checkRange_fin_cases, cmpVal_neg_lt_min] at h
    simp at h

lemma validate_ok_shape (a : RawAmount) (v : PyDecimal)
    (h : AmountValidator.validate a = .ok v) :
    ∃ c2, v = .fin false c2 (-2) ∧ 1 ≤ c2 ∧ c2 ≤ 99999999 := by
  unfold AmountValidator.validate at h
  cases hta : isAllowedType a
  · simp [hta] at h
  · simp only [hta, Bool.not_true, Bool.false_eq_true, if_false] at h
    rcases hp : pyDecimalOf a with _ | d <;> rw [hp] at h
    · simp at h
    · simp only [] at h
      match d with
      | .fin s c e => exact checkRange_ok_shape s c e v h
      | .inf s =>
          cases s <;>
            simp [checkRange, decCompare, MIN_PAYMENT_AMOUNT, MAX_PAYMENT_AMOUNT] at h
      | .nan => simp [checkRange, decCompare] at h

/-! ### The spec-side range predicates against the code's comparisons -/

lemma specBelow_true_of_lt (s : Bool) (c : Nat) (e : Int)
    (h : cmpVal (signedCoeff s c) e 1 (-2) = .lt) :
    specBelowMin (.fin s c e) = true := by
  have h2 := (cmpVal_eq_lt_iff _ _ _ _).mp h
  rw [q_one_em2] at h2
  simpa [specBelowMin] using h2

lemma specBelow_false_of_ne_lt (s : Bool) (c : Nat) (e : Int)
    (h : cmpVal (signedCoeff s c) e 1 (-2) ≠ .lt) :
    specBelowMin (.fin s c e) = false := by
  simp only [specBelowMin, decide_eq_false_iff_not]
  intro hlt
  rw [← q_one_em2] at hlt
  exact h ((cmpVal_eq_lt_iff _ _ _ _).mpr hlt)

lemma specAbove_true_of_gt (s : Bool) (c : Nat) (e : Int)
    (h : cmpVal (signedCoeff s c) e 99999999 (-2) = .gt) :
    specAboveMax (.fin s c e) = true := by
  have h2 := (cmpVal_eq_gt_iff _ _ _ _).mp h
  rw [q_max_em2] at h2
  simpa [specAboveMax] using h2

lemma specAbove_false_of_ne_gt (s : Bool) (c : Nat) (e : Int)
    (h : cmpVal (signedCoeff s c) e 99999999 (-2) ≠ .gt) :
    specAboveMax (.fin s c e) = false := by
  simp only [specAboveMax, decide_eq_false_iff_not]
  intro hgt
  rw [← q_max_em2] at hgt
  exact h ((cmpVal_eq_gt_iff _ _ _ _).mpr hgt)

lemma checkRange_invalidAmount_char (d : PyDecimal) :
    isInvalidAmountRes (checkRange d) = (specBelowMin d || specAboveMax d) := by
  match d with
  | .nan => rfl
  | .inf s => cases s <;> rfl
  | .fin s c e =>
    rw [checkRange_fin_cases]
    rcases hv1 : cmpVal (signedCoeff s c) e 1 (-2) with _ | _ | _
    · rw [specBelow_true_of_lt s c e hv1]
      rfl
    · have hb := specBelow_false_of_ne_lt s c e (by simp [hv1])
      rcases hv2 : cmpVal (signedCoeff s c) e 99999999 (-2) with _ | _ | _
      · rw [hb, specAbove_false_of_ne_gt s c e (by simp [hv2])]
        rfl
      · rw [hb, specAbove_false_of_ne_gt s c e (by simp [hv2])]
        rfl
      · rw [hb, specAbove_true_of_gt s c e hv2]
        rfl
    · have hb := specBelow_false_of_ne_lt s c e (by simp [hv1])
      rcases hv2 : cmpVal (signedCoeff s c) e 99999999 (-2) with _ | _ | _
      · rw [hb, specAbove_false_of_ne_gt s c e (by simp [hv2])]
        rfl
      · rw [hb, specAbove_false_of_ne_gt s c e (by simp [hv2])]
        rfl
      · rw [hb, specAbove_true_of_gt s c e hv2]
        rfl

lemma validate_invalidAmount_char (a : RawAmount) :
    isInvalidAmountRes (AmountValidator.validate a) = specC3Cond a := by
  cases a with
  | other => rfl
  | bool b => cases b <;> rfl
  | int n =>
      have h : AmountValidator.validate (.int n)
          = checkRange (.fin (decide (n < 0)) n.natAbs 0) := rfl
      have hr : ratSigned (decide (n < 0)) n.natAbs 0 = (n : ℚ) := by
        unfold ratSigned
        rw [signedCoeff_int]
        simp
      rw [h, checkRange_invalidAmount_char]
      show (specBelowMin (.fin (decide (n < 0)) n.natAbs 0)
          || specAboveMax (.fin (decide (n < 0)) n.natAbs 0)) = _
      simp only [specBelowMin, specAboveMax, hr, specC3Cond]
  | float d =>
      have h : AmountValidator.validate (.float d) = checkRange d := rfl
      rw [h, checkRange_invalidAmount_char]
      rfl
  | decimal d =>
      have h : AmountValidator.validate (.decimal d) = checkRange d := rfl
      rw [h, checkRange_invalidAmount_char]
      rfl
  | str s =>
      rcases hp : parseDecimalString s with _ | d
      · have h : AmountValidator.validate (.str s)
            = .error (.invalidAmount INVALID_AMOUNT_TYPE_ERROR) := by
          unfold AmountValidator.validate
          simp [pyDecimalOf, hp]
        rw [h]
        have h2 : specC3Cond (.str s) = true := by
          simp [specC3Cond, hp]
        rw [h2]
        rfl
      · have h : AmountValidator.validate (.str s) = checkRange d := by
          unfold AmountValidator.validate
          simp [pyDecimalOf, hp, show isAllowedType (.str s) = true from rfl]
        have h2 : specC3Cond (.str s) = (specBelowMin d || specAboveMax d) := by
          simp [specC3Cond, hp]
        rw [h, h2, checkRange_invalidAmount_char]

/-! ### Successful validation, evaluated -/

lemma validate_eq_ok_of (a : RawAmount) (s : Bool) (c : Nat) (e : Int)
    (hp : pyDecimalOf a = some (.fin s c e))
    (h1 : ¬ ratSigned s c e < 1 / 100)
    (h2 : ¬ (99999999 : ℚ) / 100 < ratSigned s c e) :
    AmountValidator.validate a = .ok (quantize2 (.fin s c e)) := by
  have hta : isAllowedType a = true := by
    cases a with
    | other => rw [show pyDecimalOf RawAmount.other = none from rfl] at hp; simp at hp
    | bool b =>
        cases b
        · rw [show pyDecimalOf (.bool false) = none from rfl] at hp
          simp at hp
        · rw [show pyDecimalOf (.bool true) = none from rfl] at hp
          simp at hp
    | int n => rfl
    | float d => rfl
    | decimal d => rfl
    | str s0 => rfl
  unfold AmountValidator.validate
  rw [hta, hp]
  show checkRange (.fin s c e) = .ok (quantize2 (.fin s c e))
  rw [checkRange_fin_cases]
  have hc1 : cmpVal (signedCoeff s c) e 1 (-2) ≠ .lt := by
    rw [ne_eq, cmpVal_eq_lt_iff, q_one_em2]
    exact h1
  have hc2 : cmpVal (signedCoeff s c) e 99999999 (-2) ≠ .gt := by
    rw [ne_eq, cmpVal_eq_gt_iff, q_max_em2]
    exact h2
  rcases hv1 : cmpVal (signedCoeff s c) e 1 (-2) with _ | _ | _
  · exact absurd hv1 hc1
  · rcases hv2 : cmpVal (signedCoeff s c) e 99999999 (-2) with _ | _ | _
    · rfl
    · rfl
    · exact absurd hv2 hc2
  · rcases hv2 : cmpVal (signedCoeff s c) e 99999999 (-2) with _ | _ | _
    · rfl
    · rfl
    · exact absurd hv2 hc2

/-! ### The five-digit transaction-id suffix -/

lemma digitChar_mod_isDigit (x : Nat) : (digitChar (x % 10)).isDigit = true := by
  have hd : x % 10 < 10 := Nat.mod_lt x (by norm_num)
  revert hd
  generalize x % 10 = d
  intro hd
  interval_cases d <;> decide

lemma format05_length (n : Nat) : (format05 n).length = 5 := rfl

lemma format05_all_digits (n : Nat) : (format05 n).data.all Char.isDigit = true := by
  show ([digitChar (n / 10000 % 10), digitChar (n / 1000 % 10), digitChar (n / 100 % 10),
         digitChar (n / 10 % 10), digitChar (n % 10)].all Char.isDigit) = true
  simp [List.all_cons, digitChar_mod_isDigit]

/-! ### Claims -/

/-- C4: `AmountValidator.validate` rounds to two decimals consistently with
round-half-up at the third decimal on the spec's reference points:
`validate(99.999) == 100.00`, `validate(150.555) == 150.56`,
`validate(100.123) == 100.12` (the float literals reach `Decimal` through
their `str()` forms `"99.999"`, `"150.555"`, `"100.123"`). -/
theorem c4_reference_rounding :
    AmountValidator.validate (.float (.fin false 99999 (-3))) = .ok (.fin false 10000 (-2))
    ∧ (PyDecimal.fin false 10000 (-2)).pyStr = "100.00"
    ∧ AmountValidator.validate (.float (.fin false 150555 (-3))) = .ok (.fin false 15056 (-2))
    ∧ (PyDecimal.fin false 15056 (-2)).pyStr = "150.56"
    ∧ AmountValidator.validate (.float (.fin false 100123 (-3))) = .ok (.fin false 10012 (-2))
    ∧ (PyDecimal.fin false 10012 (-2)).pyStr = "100.12" :=
  ⟨rfl, rfl, rfl, rfl, rfl, rfl⟩

/-- C6: `CheckoutService.checkout` validates the mode first: any value that is
not a `PaymentMode` member fails with `InvalidPaymentMode` for every amount,
valid or not (so the amount is never consulted); in particular
`checkout("BITCOIN", 10.00)` fails with `InvalidPaymentMode`. -/
theorem c6_mode_checked_first (hash : String → Int) (s : String) (a : RawAmount) :
    CheckoutService.checkout (initService hash) (.notMode s) a
        = .error (.invalidPaymentMode s)
    ∧ CheckoutService.checkout (initService hash) (.notMode "BITCOIN")
        (.float (.fin false 100 (-1)))
        = .error (.invalidPaymentMode "BITCOIN") :=
  ⟨rfl, rfl⟩

/-- C2 counterexample: `PaymentMode.from_string "BITCOIN"` raises the builtin
`ValueError`, not the repository's `InvalidPaymentModeError` as the claim
states (the code's own docstring documents `ValueError`). -/
theorem c2_counterexample_bitcoin :
    PaymentMode.from_string "BITCOIN"
      = .error (.valueError ("Invalid payment mode: BITCOIN. Valid modes are: "
          ++ VALID_MODES_REPR))
    ∧ isInvalidPaymentModeRes (PaymentMode.from_string "BITCOIN") = false :=
  ⟨rfl, rfl⟩

/-- C2 (amended): `from_string` maps every string whose uppercase form equals a
member name to that member, and for every other string it fails with a
`ValueError` (not `InvalidPaymentModeError`) whose message lists the valid
options. -/
theorem c2_from_string_amended (s : String) :
    (asciiUpper s = "PAYPAL" → PaymentMode.from_string s = .ok .PAYPAL)
    ∧ (asciiUpper s = "GOOGLEPAY" → PaymentMode.from_string s = .ok .GOOGLEPAY)
    ∧ (asciiUpper s = "CREDITCARD" → PaymentMode.from_string s = .ok .CREDITCARD)
    ∧ (asciiUpper s ≠ "PAYPAL" → asciiUpper s ≠ "GOOGLEPAY" → asciiUpper s ≠ "CREDITCARD" →
        PaymentMode.from_string s
          = .error (.valueError ("Invalid payment mode: " ++ asciiUpper s
              ++ ". Valid modes are: " ++ VALID_MODES_REPR))) := by
  refine ⟨?_, ?_, ?_, ?_⟩
  · intro h
    simp only [PaymentMode.from_string, h]
    rfl
  · intro h
    simp only [PaymentMode.from_string, h]
    rfl
  · intro h
    simp only [PaymentMode.from_string, h]
    rfl
  · intro h1 h2 h3
    simp only [PaymentMode.from_string]
    rw [if_neg h1, if_neg h2, if_neg h3]

/-- Witness for C2: the spec's own example, `from_string` is case-insensitive
on valid names. -/
theorem c2_witness :
    PaymentMode.from_string "paypal" = .ok .PAYPAL
    ∧ PaymentMode.from_string "PAYPAL" = .ok .PAYPAL :=
  ⟨(c2_from_string_amended "paypal").1 (by decide),
   (c2_from_string_amended "PAYPAL").1 (by decide)⟩

/-- C5: amount normalization is idempotent: whenever `validate` succeeds, it
also succeeds on the value it returned, returning it unchanged
(`validate(validate(a)) == validate(a)`). -/
theorem c5_validate_idempotent (a : RawAmount) (v : PyDecimal)
    (h : AmountValidator.validate a = .ok v) :
    AmountValidator.validate (.decimal v) = .ok v := by
  obtain ⟨c2, hv, hb1, hb2⟩ := validate_ok_shape a v h
  subst hv
  have hp : pyDecimalOf (.decimal (.fin false c2 (-2))) = some (.fin false c2 (-2)) := rfl
  have hq : quantize2 (.fin false c2 (-2)) = .fin false c2 (-2) := by
    simp [quantize2]
  have hs : signedCoeff false c2 = (c2 : Int) := rfl
  have h1 : ¬ ratSigned false c2 (-2) < 1 / 100 := by
    rw [not_lt]
    unfold ratSigned
    rw [hs, ← q_one_em2]
    apply mul_le_mul_of_nonneg_right ?_ (le_of_lt (zpow_pos (by norm_num) _))
    exact_mod_cast hb1
  have h2 : ¬ (99999999 : ℚ) / 100 < ratSigned false c2 (-2) := by
    rw [not_lt]
    unfold ratSigned
    rw [hs, ← q_max_em2]
    apply mul_le_mul_of_nonneg_right ?_ (le_of_lt (zpow_pos (by norm_num) _))
    exact_mod_cast hb2
  have hfix := validate_eq_ok_of (.decimal (.fin false c2 (-2))) false c2 (-2) hp h1 h2
  rw [hfix, hq]

/-- Witness for C5 at the string amount "10.50". -/
theorem c5_witness :
    AmountValidator.validate (.decimal (.fin false 1050 (-2))) = .ok (.fin false 1050 (-2)) :=
  c5_validate_idempotent (.str "10.50") (.fin false 1050 (-2)) rfl

/-- C1: for every valid `PaymentMode` and every amount whose decimal value
lies in `[0.01, 999999.99]`, `CheckoutService.checkout` succeeds and returns
`success = true`, the message
`"Successfully processed <Name> payment of $<amount formatted to two
decimals>"`, and a (non-empty) transaction id `<prefix>_<5-digit number>`
whose prefix (PP/GP/CC) matches the mode. -/
theorem c1_checkout_succeeds_in_range (hash : String → Int) (m : PaymentMode)
    (a : RawAmount) (s : Bool) (c : Nat) (e : Int)
    (hp : pyDecimalOf a = some (.fin s c e))
    (hlo : 1 / 100 ≤ ratSigned s c e)
    (hhi : ratSigned s c e ≤ (99999999 : ℚ) / 100) :
    ∃ r, CheckoutService.checkout (initService hash) (.mode m) a = .ok r
      ∧ r.success = true
      ∧ r.message = "Successfully processed " ++ processorDisplayName m
          ++ " payment of $" ++ formatF2 (quantize2 (.fin s c e))
      ∧ ∃ suffix, r.transaction_id = some (modeTag m ++ "_" ++ suffix)
          ∧ suffix.length = 5 ∧ suffix.data.all Char.isDigit = true := by
  have hv : AmountValidator.validate a = .ok (quantize2 (.fin s c e)) :=
    validate_eq_ok_of a s c e hp (not_lt.mpr hlo) (not_lt.mpr hhi)
  have hstep : CheckoutService.checkout (initService hash) (.mode m) a
      = (match (initService hash).get_processor m with
         | .error err => .error err
         | .ok p => p (quantize2 (.fin s c e))) := by
    unfold CheckoutService.checkout
    rw [hv]
  cases m
  case PAYPAL =>
    rw [hstep]
    refine ⟨{ success := true,
              message := "Successfully processed PayPal payment of $"
                ++ formatF2 (quantize2 (.fin s c e)),
              transaction_id := some ("PP_"
                ++ format05 ((hash (quantize2 (.fin s c e)).pyStr).emod 100000).toNat) },
            rfl, rfl, rfl, ?_⟩
    exact ⟨format05 ((hash (quantize2 (.fin s c e)).pyStr).emod 100000).toNat,
           rfl, format05_length _, format05_all_digits _⟩
  case GOOGLEPAY =>
    rw [hstep]
    refine ⟨{ success := true,
              message := "Successfully processed GooglePay payment of $"
                ++ formatF2 (quantize2 (.fin s c e)),
              transaction_id := some ("GP_"
                ++ format05 ((hash (quantize2 (.fin s c e)).pyStr).emod 100000).toNat) },
            rfl, rfl, rfl, ?_⟩
    exact ⟨format05 ((hash (quantize2 (.fin s c e)).pyStr).emod 100000).toNat,
           rfl, format05_length _, format05_all_digits _⟩
  case CREDITCARD =>
    rw [hstep]
    refine ⟨{ success := true,
              message := "Successfully processed Credit Card payment of $"
                ++ formatF2 (quantize2 (.fin s c e)),
              transaction_id := some ("CC_"
                ++ format05 ((hash (quantize2 (.fin s c e)).pyStr).emod 100000).toNat) },
            rfl, rfl, rfl, ?_⟩
    exact ⟨format05 ((hash (quantize2 (.fin s c e)).pyStr).emod 100000).toNat,
           rfl, format05_length _, format05_all_digits _⟩

/-- Witness for C1 at PAYPAL and the decimal amount 150.75. -/
theorem c1_witness :
    ∃ r, CheckoutService.checkout (initService (fun _ => 0)) (.mode .PAYPAL)
        (.decimal (.fin false 15075 (-2))) = .ok r
      ∧ r.success = true
      ∧ r.message = "Successfully processed " ++ processorDisplayName .PAYPAL
          ++ " payment of $" ++ formatF2 (quantize2 (.fin false 15075 (-2)))
      ∧ ∃ suffix, r.transaction_id = some (modeTag .PAYPAL ++ "_" ++ suffix)
          ∧ suffix.length = 5 ∧ suffix.data.all Char.isDigit = true :=
  c1_checkout_succeeds_in_range (fun _ => 0) .PAYPAL (.decimal (.fin false 15075 (-2)))
    false 15075 (-2) rfl (by norm_num [ratSigned, signedCoeff])
    (by norm_num [ratSigned, signedCoeff])

/-- C3: `AmountValidator.validate` raises `InvalidAmount` exactly under the
spec's conditions (wrong type - a boolean counts as non-numeric -, unparsable
string, or parsed value below 0.01 / above 999999.99; a NaN is neither below
nor above, and there the code raises `decimal.InvalidOperation` instead, not
`InvalidAmount`); in particular `checkout(PAYPAL, -5)` fails with the too-low
`InvalidAmount`, and every non-numeric, non-numeric-string amount fails with
the type-error `InvalidAmount`. -/
theorem c3_invalid_amount_characterization (hash : String → Int) (m : PaymentMode)
    (a : RawAmount) :
    (isInvalidAmountRes (AmountValidator.validate a) = specC3Cond a)
    ∧ (CheckoutService.checkout (initService hash) (.mode .PAYPAL) (.int (-5))
        = .error (.invalidAmount AMOUNT_TOO_LOW_ERROR))
    ∧ (isNonNumericInput a = true →
        CheckoutService.checkout (initService hash) (.mode m) a
          = .error (.invalidAmount INVALID_AMOUNT_TYPE_ERROR)) := by
  refine ⟨validate_invalidAmount_char a, rfl, ?_⟩
  intro hn
  cases a with
  | other => rfl
  | bool b => cases b <;> rfl
  | int n =>
      rw [show isNonNumericInput (.int n) = false from rfl] at hn
      simp at hn
  | float d =>
      rw [show isNonNumericInput (.float d) = false from rfl] at hn
      simp at hn
  | decimal d =>
      rw [show isNonNumericInput (.decimal d) = false from rfl] at hn
      simp at hn
  | str s0 =>
      have hp : parseDecimalString s0 = none := by
        cases hpp : parseDecimalString s0
        · rfl
        · rw [show isNonNumericInput (.str s0) = (parseDecimalString s0).isNone from rfl,
            hpp] at hn
          simp at hn
      have hv : AmountValidator.validate (.str s0)
          = .error (.invalidAmount INVALID_AMOUNT_TYPE_ERROR) := by
        unfold AmountValidator.validate
        simp [pyDecimalOf, hp]
      unfold CheckoutService.checkout
      rw [hv]

/-- Witness for C3 at the non-numeric string "abc". -/
theorem c3_witness :
    (isInvalidAmountRes (AmountValidator.validate (.str "abc")) = specC3Cond (.str "abc"))
    ∧ (CheckoutService.checkout (initService (fun _ => 0)) (.mode .PAYPAL) (.int (-5))
        = .error (.invalidAmount AMOUNT_TOO_LOW_ERROR))
    ∧ (CheckoutService.checkout (initService (fun _ => 0)) (.mode .GOOGLEPAY) (.str "abc")
        = .error (.invalidAmount INVALID_AMOUNT_TYPE_ERROR)) :=
  ⟨(c3_invalid_amount_characterization (fun _ => 0) .GOOGLEPAY (.str "abc")).1,
   (c3_invalid_amount_characterization (fun _ => 0) .GOOGLEPAY (.str "abc")).2.1,
   (c3_invalid_amount_characterization (fun _ => 0) .GOOGLEPAY (.str "abc")).2.2 rfl⟩

/-- Lemma: `AmountValidator.validate` never raises `ProcessorNotFoundError`. -/
lemma validate_ne_procNotFound (a : RawAmount) (s0 : String) :
    AmountValidator.validate a ≠ .error (.processorNotFound s0) := by
  intro h
  unfold AmountValidator.validate at h
  cases hta : isAllowedType a
  · simp [hta] at h
  · simp only [hta, Bool.not_true, Bool.false_eq_true, if_false] at h
    rcases hp : pyDecimalOf a with _ | d <;> rw [hp] at h
    · simp at h
    · simp only [] at h
      cases d with
      | nan => simp [checkRange, decCompare] at h
      | inf sb =>
          cases sb <;>
            simp [checkRange, decCompare, MIN_PAYMENT_AMOUNT, MAX_PAYMENT_AMOUNT] at h
      | fin sb cb eb =>
          rw [checkRange_fin_cases] at h
          rcases hv1 : cmpVal (signedCoeff sb cb) eb 1 (-2) with _ | _ | _ <;> rw [hv1] at h
          · simp at h
          · rcases hv2 : cmpVal (signedCoeff sb cb) eb 99999999 (-2) with _ | _ | _ <;>
              rw [hv2] at h <;> simp at h
          · rcases hv2 : cmpVal (signedCoeff sb cb) eb 99999999 (-2) with _ | _ | _ <;>
              rw [hv2] at h <;> simp at h

/-- C7: `add_processor` overwrites the registry entry for the given mode
without any error, leaves the other entries unchanged, and a subsequent
`checkout` for that mode returns the newly registered processor's result
(here: a stub registered for PAYPAL handles `checkout(PAYPAL, 10.00)`,
receiving the validated amount 10.00). -/
theorem c7_add_processor_overwrites (hash : String → Int) (svc : CheckoutService)
    (m m2 : PaymentMode) (stub : Processor) :
    ((svc.add_processor m stub).processors m = some stub)
    ∧ (m2 ≠ m → (svc.add_processor m stub).processors m2 = svc.processors m2)
    ∧ (CheckoutService.checkout ((initService hash).add_processor .PAYPAL stub)
        (.mode .PAYPAL) (.float (.fin false 100 (-1))) = stub (.fin false 1000 (-2))) := by
  refine ⟨?_, ?_, rfl⟩
  · simp [CheckoutService.add_processor]
  · intro h
    simp [CheckoutService.add_processor, h]

/-- Witness for C7 with the stub processor registered over the default PayPal
processor. -/
theorem c7_witness :
    (((initService (fun _ => 0)).add_processor .PAYPAL stubProcessor).processors .PAYPAL
        = some stubProcessor)
    ∧ (((initService (fun _ => 0)).add_processor .PAYPAL stubProcessor).processors .GOOGLEPAY
        = (initService (fun _ => 0)).processors .GOOGLEPAY)
    ∧ (CheckoutService.checkout ((initService (fun _ => 0)).add_processor .PAYPAL stubProcessor)
        (.mode .PAYPAL) (.float (.fin false 100 (-1))) = stubProcessor (.fin false 1000 (-2))) :=
  ⟨(c7_add_processor_overwrites (fun _ => 0) (initService (fun _ => 0)) .PAYPAL .GOOGLEPAY
      stubProcessor).1,
   (c7_add_processor_overwrites (fun _ => 0) (initService (fun _ => 0)) .PAYPAL .GOOGLEPAY
      stubProcessor).2.1 (by decide),
   (c7_add_processor_overwrites (fun _ => 0) (initService (fun _ => 0)) .PAYPAL .GOOGLEPAY
      stubProcessor).2.2⟩

/-- C8: in every reachable service state the registry has an entry for every
`PaymentMode` member (it starts with all three and `add_processor`, the only
mutating operation, never removes one), so `_get_processor` always succeeds
there, and `checkout` on the service as constructed never raises
`ProcessorNotFound`. -/
theorem c8_registry_always_total (hash : String → Int) (svc : CheckoutService)
    (hr : Reachable hash svc) :
    (∀ m : PaymentMode, ((svc.processors m).isSome = true)
        ∧ ∃ p, svc.get_processor m = .ok p)
    ∧ (∀ (mi : ModeInput) (a : RawAmount),
        isProcessorNotFoundRes (CheckoutService.checkout (initService hash) mi a) = false) := by
  constructor
  · intro m
    have hsome : (svc.processors m).isSome = true := by
      induction hr with
      | init => cases m <;> rfl
      | add svc0 m0 p0 hr0 ih =>
          by_cases hm : m = m0
          · simp [CheckoutService.add_processor, hm]
          · simp only [CheckoutService.add_processor, if_neg hm]
            exact ih
    refine ⟨hsome, ?_⟩
    rcases hpm : svc.processors m with _ | p
    · rw [hpm] at hsome
      simp at hsome
    · refine ⟨p, ?_⟩
      unfold CheckoutService.get_processor
      rw [hpm]
  · intro mi a
    cases mi with
    | notMode s => rfl
    | mode m =>
        unfold CheckoutService.checkout
        cases hv : AmountValidator.validate a with
        | error err =>
            cases err
            case processorNotFound s0 => exact absurd hv (validate_ne_procNotFound a s0)
            all_goals rfl
        | ok v => cases m <;> rfl

/-- Witness for C8 at the freshly constructed service. -/
theorem c8_witness :
    ((((initService (fun _ => 0)).processors .PAYPAL).isSome = true)
      ∧ ∃ p, (initService (fun _ => 0)).get_processor .PAYPAL = .ok p)
    ∧ isProcessorNotFoundRes (CheckoutService.checkout (initService (fun _ => 0))
        (.mode .CREDITCARD) (.str "nonsense")) = false :=
  ⟨(c8_registry_always_total (fun _ => 0) (initService (fun _ => 0)) Reachable.init).1 .PAYPAL,
   (c8_registry_always_total (fun _ => 0) (initService (fun _ => 0)) Reachable.init).2
     (.mode .CREDITCARD) (.str "nonsense")⟩

/-- C9: the legacy `Checkout.checkout` facade downgrades everything to a
boolean: it returns the `PaymentResult`'s success flag when the underlying
`CheckoutService.checkout` succeeds and `false` (raising nothing) whenever it
raises - both the `except PaymentError` handler and the catch-all handler
return `False` -, while `CheckoutService.checkout` itself propagates
validation errors and processor failures unchanged to its caller. -/
theorem c9_legacy_facade (hash : String → Int) (mi : ModeInput) (a : RawAmount) :
    (∀ r, CheckoutService.checkout (initService hash) mi a = .ok r →
        Checkout.checkout hash mi a = r.success)
    ∧ (∀ err, CheckoutService.checkout (initService hash) mi a = .error err →
        Checkout.checkout hash mi a = false)
    ∧ (∀ (m : PaymentMode) (err : PyError), AmountValidator.validate a = .error err →
        CheckoutService.checkout (initService hash) (.mode m) a = .error err)
    ∧ (∀ (svc : CheckoutService) (m : PaymentMode) (v : PyDecimal) (p : Processor)
          (err : PyError),
        AmountValidator.validate a = .ok v → svc.processors m = some p → p v = .error err →
        CheckoutService.checkout svc (.mode m) a = .error err) := by
  refine ⟨?_, ?_, ?_, ?_⟩
  · intro r h
    unfold Checkout.checkout
    rw [h]
  · intro err h
    unfold Checkout.checkout
    rw [h]
    cases hpe : isPaymentError err <;> simp [hpe]
  · intro m err h
    unfold CheckoutService.checkout
    rw [h]
  · intro svc m v p err h1 h2 h3
    have hg : svc.get_processor m = .ok p := by
      unfold CheckoutService.get_processor
      rw [h2]
    show (match AmountValidator.validate a with
          | Except.error e => (Except.error e : Except PyError PaymentResult)
          | Except.ok validated =>
            match svc.get_processor m with
            | Except.error e => (Except.error e : Except PyError PaymentResult)
            | Except.ok p2 => p2 validated) = Except.error err
    rw [h1, hg]
    exact h3

/-- Witness for C9: an invalid string amount yields `False` from the facade,
a valid one yields `True`. -/
theorem c9_witness :
    Checkout.checkout (fun _ => 0) (.mode .PAYPAL) (.str "abc") = false
    ∧ Checkout.checkout (fun _ => 0) (.mode .PAYPAL) (.str "10.50") = true :=
  ⟨(c9_legacy_facade (fun _ => 0) (.mode .PAYPAL) (.str "abc")).2.1
      (.invalidAmount INVALID_AMOUNT_TYPE_ERROR) rfl,
   (c9_legacy_facade (fun _ => 0) (.mode .PAYPAL) (.str "10.50")).1
      { success := true,
        message := "Successfully processed PayPal payment of $10.50",
        transaction_id := some "PP_00000" } rfl⟩

/-- C10: transaction-id generation is a deterministic function of the
validated amount alone: any of the system's processors, applied twice to
validated amounts that are equal as Decimals, returns identical transaction
ids (so ids are NOT unique across calls with the same amount). -/
theorem c10_transaction_id_deterministic (hash : String → Int) (m : PaymentMode)
    (a1 a2 : RawAmount) (v1 v2 : PyDecimal) (p : Processor)
    (h1 : AmountValidator.validate a1 = .ok v1)
    (h2 : AmountValidator.validate a2 = .ok v2)
    (heq : decCompare v1 v2 = some .eq)
    (hp : (initService hash).processors m = some p) :
    ∃ r1 r2, p v1 = .ok r1 ∧ p v2 = .ok r2 ∧ r1.transaction_id = r2.transaction_id := by
  obtain ⟨c1, hv1, hb11, hb12⟩ := validate_ok_shape a1 v1 h1
  obtain ⟨c2, hv2, hb21, hb22⟩ := validate_ok_shape a2 v2 h2
  subst hv1
  subst hv2
  have hc : c1 = c2 := by
    have h3 : cmpVal (signedCoeff false c1) (-2) (signedCoeff false c2) (-2) = .eq := by
      simpa [decCompare] using heq
    have hs1 : signedCoeff false c1 = (c1 : Int) := rfl
    have hs2 : signedCoeff false c2 = (c2 : Int) := rfl
    rw [hs1, hs2] at h3
    unfold cmpVal at h3
    rw [if_pos (le_refl (-2 : Int))] at h3
    rw [show ((-2 : Int) - -2).toNat = 0 from rfl] at h3
    simp only [pow_zero, mul_one] at h3
    have h4 := (ordInt_eq_eq _ _).mp h3
    exact_mod_cast h4
  subst hc
  cases m
  case PAYPAL =>
    have h5 : some (PayPalProcessor.process_payment hash) = some p := hp
    injection h5 with h6
    subst h6
    exact ⟨_, _, rfl, rfl, rfl⟩
  case GOOGLEPAY =>
    have h5 : some (GooglePayProcessor.process_payment hash) = some p := hp
    injection h5 with h6
    subst h6
    exact ⟨_, _, rfl, rfl, rfl⟩
  case CREDITCARD =>
    have h5 : some (CreditCardProcessor.process_payment hash) = some p := hp
    injection h5 with h6
    subst h6
    exact ⟨_, _, rfl, rfl, rfl⟩

/-- Witness for C10: the amounts Decimal('10.5') and "10.50" both validate to
10.50 and get the same PayPal transaction id. -/
theorem c10_witness :
    ∃ r1 r2,
      PayPalProcessor.process_payment (fun _ => 0) (.fin false 1050 (-2)) = .ok r1
      ∧ PayPalProcessor.process_payment (fun _ => 0) (.fin false 1050 (-2)) = .ok r2
      ∧ r1.transaction_id = r2.transaction_id :=
  c10_transaction_id_deterministic (fun _ => 0) .PAYPAL (.decimal (.fin false 105 (-1)))
    (.str "10.50") (.fin false 1050 (-2)) (.fin false 1050 (-2))
    (PayPalProcessor.process_payment (fun _ => 0)) rfl rfl (by decide) rfl
